import Mathlib

/-!
Verification of the shared request/response/error pipeline of
arcgis-location-services-mcp (src/main.py): the functions
`make_arcgis_request` and `log_http_request`, shallowly embedded in Lean.

Python dictionaries of string scalars are modelled as association lists
with insertion-ordered update semantics; JSON values as an inductive
`Json`; the HTTP transport as an oracle `Request → TransportOutcome`;
a raised `ArcGISError` is the gateway's Normalized Error outcome, a raised
non-`ArcGISError` Python exception is the `Outcome.uncaught` case.
-/

namespace ArcGISMCP

/-- JSON values, as produced by `response.json()`. -/
inductive Json where
  | null
  | bool (b : Bool)
  | num (n : Int)
  | str (s : String)
  | arr (elems : List Json)
  | obj (fields : List (String × Json))

/-- Python `dict[str, str]`, insertion ordered, keys unique. -/
abbrev Params := List (String × String)

/-- Python `method.upper()` (ASCII upcasing suffices for HTTP methods). -/
def strToUpper (s : String) : String := String.mk (s.data.map Char.toUpper)

/-- `k in d` for a string-valued dict. -/
def hasKey : Params → String → Bool
  | [], _ => false
  | (k2, _) :: rest, k => if k2 = k then true else hasKey rest k

/-- `d[k]` lookup, `none` when the key is absent. -/
def getKey : Params → String → Option String
  | [], _ => none
  | (k2, v) :: rest, k => if k2 = k then some v else getKey rest k

/-- `d.get(k, dflt)`. -/
def getKeyD (m : Params) (k : String) (dflt : String) : String :=
  (getKey m k).getD dflt

/-- `d[k] = v`: replace in place when present, append when absent. -/
def setKey : Params → String → String → Params
  | [], k, v => [(k, v)]
  | (k2, v2) :: rest, k, v =>
      if k2 = k then (k, v) :: rest else (k2, v2) :: setKey rest k v

/-- Removal of a key, as performed by `d.pop(k)`. -/
def eraseKey : Params → String → Params
  | [], _ => []
  | (k2, v2) :: rest, k =>
      if k2 = k then eraseKey rest k else (k2, v2) :: eraseKey rest k

/-- `d.pop(k, dflt)`: the popped value and the remaining dict. -/
def popKeyD (m : Params) (k : String) (dflt : String) : String × Params :=
  (getKeyD m k dflt, eraseKey m k)

/-- `k in fields` for a JSON object. -/
def jHasKey : List (String × Json) → String → Bool
  | [], _ => false
  | (k2, _) :: rest, k => if k2 = k then true else jHasKey rest k

/-- Lookup in a JSON object's field list. -/
def jGet : List (String × Json) → String → Option Json
  | [], _ => none
  | (k2, v) :: rest, k => if k2 = k then some v else jGet rest k

/-- `.get(k, dflt)` on a JSON object's field list. -/
def jGetD (fs : List (String × Json)) (k : String) (dflt : Json) : Json :=
  (jGet fs k).getD dflt

/-- Whether the string `s` appears in the JSON array (Python `s in lst`):
only an equal string element matches. -/
def jArrHasStr : List Json → String → Bool
  | [], _ => false
  | .str s2 :: rest, s => if s2 = s then true else jArrHasStr rest s
  | _ :: rest, s => jArrHasStr rest s

/-- Whether `pat` starts the character list `cs`. -/
def charsStartWith : List Char → List Char → Bool
  | [], _ => true
  | _ :: _, [] => false
  | p :: ps, c :: cs => if p = c then charsStartWith ps cs else false

/-- Whether `pat` occurs as a contiguous run inside `cs`. -/
def charsContain (pat : List Char) : List Char → Bool
  | [] => pat.isEmpty
  | c :: cs => charsStartWith pat (c :: cs) || charsContain pat cs

/-- Python substring containment `pat in s`. -/
def strContainsSub (s pat : String) : Bool :=
  charsContain pat.data s.data

/-- Python exceptions other than `ArcGISError` that the gateway code can
raise and does not catch on the 2xx path. -/
inductive PyExc where
  | typeError (msg : String)
  | attributeError (msg : String)
  | keyError (k : String)

/-- `needle in j` (Python membership test on the parsed JSON value):
defined for dicts, strings and lists; a `TypeError` otherwise. -/
def pyInStr (needle : String) : Json → Except PyExc Bool
  | .obj fs => .ok (jHasKey fs needle)
  | .arr es => .ok (jArrHasStr es needle)
  | .str s => .ok (strContainsSub s needle)
  | _ => .error (.typeError "argument of type is not iterable")

/-- `j[k]` (Python subscripting by a string key). -/
def pySubscript (j : Json) (k : String) : Except PyExc Json :=
  match j with
  | .obj fs =>
      match jGet fs k with
      | some v => .ok v
      | none => .error (.keyError k)
  | .str _ => .error (.typeError "string indices must be integers")
  | .arr _ => .error (.typeError "list indices must be integers")
  | _ => .error (.typeError "object is not subscriptable")

/-- `j.get(k, dflt)`: only dicts have `.get`; an `AttributeError`
otherwise. -/
def pyGetD (j : Json) (k : String) (dflt : Json) : Except PyExc Json :=
  match j with
  | .obj fs => .ok (jGetD fs k dflt)
  | _ => .error (.attributeError "object has no attribute get")

mutual

/-- Python `repr` of a JSON value (used by `str` on containers); the
container renderings abstract CPython's text, which no claim depends on. -/
def pyRepr : Json → String
  | .null => "None"
  | .bool b => if b then "True" else "False"
  | .num n => toString n
  | .str s => "\x27" ++ s ++ "\x27"
  | .arr es => "[" ++ String.intercalate ", " (pyReprList es) ++ "]"
  | .obj fs => "\x7b" ++ String.intercalate ", " (pyReprFields fs) ++ "\x7d"

def pyReprList : List Json → List String
  | [] => []
  | e :: rest => pyRepr e :: pyReprList rest

def pyReprFields : List (String × Json) → List String
  | [] => []
  | (k, v) :: rest => ("\x27" ++ k ++ "\x27: " ++ pyRepr v) :: pyReprFields rest

end

/-- Python `str` of a JSON value, as used by f-string interpolation. -/
def pyStr (j : Json) : String :=
  match j with
  | .str s => s
  | _ => pyRepr j

/-- The exception type raised by `ArcGISError(message, status_code)`;
`status_code` holds whatever JSON value the code passed (an HTTP status
is passed as a JSON number). -/
structure ArcGISError where
  message : String
  status_code : Option Json := none

/-- What one call to `make_arcgis_request` does at its boundary. -/
inductive Outcome where
  /-- the function returned the parsed body (Normalized Result) -/
  | result (j : Json)
  /-- the function raised `ArcGISError` (Normalized Error) -/
  | err (e : ArcGISError)
  /-- a non-`ArcGISError` Python exception escaped the function -/
  | uncaught (e : PyExc)

/-- The HTTP request handed to the transport layer (`httpx`). -/
structure Request where
  url : String
  method : String
  headers : List (String × String)
  query : Params
  body : Option Params
  timeout : Nat

/-- What the transport layer reports back for one exchange: a response
with a status and a body (`none` when the body text does not parse as
JSON), or an `httpx.RequestError` (timeout, connection failure). -/
inductive TransportOutcome where
  | response (status : Nat) (body : Option Json)
  | requestError (msg : String)

def USER_AGENT : String := "arcgis-location-services-mcp/1.0"

/-- The headers built at `src/main.py:173`. -/
def baseHeaders : List (String × String) :=
  [("User-Agent", USER_AGENT), ("Accept", "application/json")]

/-- `str(e)` for an `httpx.HTTPStatusError`: library-internal text,
abstracted as a deterministic function of the status and the URL. -/
def httpStatusErrorStr (status : Nat) (url : String) : String :=
  "status error " ++ toString status ++ " for url " ++ url

/-- `if token:` on the optional per-call override (Python truthiness:
`None` and the empty string are both falsy). -/
def truthyToken : Option String → Bool
  | none => false
  | some t => if t = "" then false else true

/-- Lines 162–167 of src/main.py: credential resolution. -/
def resolveToken (params : Params) (token : Option String) (apiKey : String) : Params :=
  match token with
  | some t =>
      if t = "" then
        if apiKey ≠ "" ∧ hasKey params "token" = false then setKey params "token" apiKey
        else params
      else setKey params "token" t
  | none =>
      if apiKey ≠ "" ∧ hasKey params "token" = false then setKey params "token" apiKey
      else params

/-- Lines 170–171 of src/main.py: `f=json` default. -/
def defaultF (params : Params) : Params :=
  if hasKey params "f" = false then setKey params "f" "json" else params

/-- The parameter dict after credential resolution and the `f` default
(lines 158–171), the state it is in when transport begins. -/
def preparedParams (params : Params) (token : Option String) (apiKey : String) : Params :=
  defaultF (resolveToken params token apiKey)

/-! ## The diagnostic logger `log_http_request` (src/main.py lines 61–133) -/

/-- Hex digit for percent-encoding. -/
def hexDigit (n : Nat) : Char :=
  if n < 10 then Char.ofNat (48 + n) else Char.ofNat (55 + n)

/-- `urllib.parse.quote_plus` on one character. -/
def quoteChar (c : Char) : String :=
  if c.isAlphanum || c == '_' || c == '.' || c == '-' || c == '~' then
    String.mk [c]
  else if c == ' ' then "+"
  else
    String.join (((String.mk [c]).toUTF8.toList).map
      (fun b => String.mk ['%', hexDigit (b.toNat / 16), hexDigit (b.toNat % 16)]))

/-- `urllib.parse.quote_plus`. -/
def quotePlus (s : String) : String :=
  String.join (s.data.map quoteChar)

/-- `urllib.parse.urlencode` over a string-valued dict. -/
def urlencode (ps : Params) : String :=
  String.intercalate "&" (ps.map (fun kv => quotePlus kv.1 ++ "=" ++ quotePlus kv.2))

/-- `urllib.parse.urlparse(url)`: the `(netloc, path)` pair, for URLs of
the shape `scheme://host/path` the gateway is called with. -/
def splitAfterSchemeSep : List Char → Option (List Char)
  | [] => none
  | ':' :: '/' :: '/' :: rest => some rest
  | _ :: cs => splitAfterSchemeSep cs

/-- Host and path of a URL (`urlparse(url).netloc`, `urlparse(url).path`). -/
def urlHostPath (url : String) : String × String :=
  match splitAfterSchemeSep url.data with
  | some rest =>
      (String.mk (rest.takeWhile (fun c => c ≠ '/')),
       String.mk (rest.dropWhile (fun c => c ≠ '/')))
  | none => ("", url)

/-- Lines 85–90 and 111–116 of src/main.py: the copy of a parameter dict
with the `token` value replaced by the fixed redaction marker. -/
def logSafeParams (params : Params) : Params :=
  if hasKey params "token" then setKey params "token" "......" else params

/-- `json.dumps(d, indent=2)` for a flat string-valued dict (the body
values the gateway passes are scalars rendered here as plain strings). -/
def dumpsStrDict (ps : Params) : String :=
  match ps with
  | [] => "\x7b\x7d"
  | _ => "\x7b\n" ++
      String.intercalate ",\n"
        (ps.map (fun kv => "  \x22" ++ kv.1 ++ "\x22: \x22" ++ kv.2 ++ "\x22")) ++
      "\n\x7d"

/-- The text printed by the `try` block of `log_http_request` when
formatting succeeds (lines 78–126). -/
def log_http_request_render (url : String) (params : Params) (method : String)
    (headers : List (String × String)) (body : Option Params) : String :=
  let hp := urlHostPath url
  let safeParams := logSafeParams params
  let queryString := urlencode safeParams
  let requestLine := method ++ " " ++ hp.2 ++ "?" ++ queryString ++ " HTTP/1.1"
  let headerLines := headers.map (fun kv => kv.1 ++ ": " ++ kv.2)
  let bodyLines : List String :=
    match body with
    | some b =>
        if strToUpper method = "POST" ∧ b.isEmpty = false then
          ["", dumpsStrDict (logSafeParams b)]
        else []
    | none => []
  String.intercalate "\n"
    (["\n-------- HTTP Request --------", requestLine, "Host: " ++ hp.1]
      ++ headerLines ++ bodyLines ++ ["-----------------------------\n"])

/-- A Python exception raised inside the `try` block of
`log_http_request`; the two handler arms at lines 128–133 cover every
`Exception` subclass. -/
inductive LogExc where
  | typeError (msg : String)
  | valueError (msg : String)
  | attributeError (msg : String)
  | otherExc (msg : String)

/-- Lines 77–133 of src/main.py: run the formatting step and catch any
exception it raises, producing the text actually printed. -/
def log_http_request_run : Except LogExc String → String
  | .ok s => s
  | .error (.typeError m) => "Error formatting HTTP request: " ++ m
  | .error (.valueError m) => "Error formatting HTTP request: " ++ m
  | .error (.attributeError m) => "Error formatting HTTP request: " ++ m
  | .error (.otherExc m) => "Unexpected error logging HTTP request: " ++ m

/-- `log_http_request`: formatting either succeeds and yields the
rendition, or raises the injected exception `fail`; either way the
function returns normally with the printed text. -/
def log_http_request (url : String) (params : Params) (method : String)
    (headers : List (String × String)) (body : Option Params)
    (fail : Option LogExc) : String :=
  log_http_request_run
    (match fail with
     | some e => Except.error e
     | none => Except.ok (log_http_request_render url params method headers body))

/-! ## Response classification (src/main.py lines 207–239) -/

/-- Lines 209–220: the 2xx path. `response.json()` failing is the inner
`json.JSONDecodeError` handler; then `if "error" in result:` and the two
`.get` calls follow Python semantics, whose `TypeError`/`AttributeError`
on non-dict values no handler of the function catches. -/
def classifySuccessBody (body : Option Json) : Outcome :=
  match body with
  | none => .err ⟨"Invalid JSON response from ArcGIS API", none⟩
  | some result =>
      match pyInStr "error" result with
      | .error e => .uncaught e
      | .ok true =>
          match pySubscript result "error" with
          | .error e => .uncaught e
          | .ok errVal =>
              match pyGetD errVal "message" (.str "Unknown error") with
              | .error e => .uncaught e
              | .ok msg =>
                  match pyGetD errVal "code" (.num 0) with
                  | .error e => .uncaught e
                  | .ok code => .err ⟨"API Error: " ++ pyStr msg, some code⟩
      | .ok false => .result result

/-- Lines 222–233: the `httpx.HTTPStatusError` handler. The nested `try`
parses the error body and reads `error.message` / `error.code`; its bare
`except:` catches any failure (unparseable body, non-dict body, non-dict
`error` member) and falls back to `str(e)` and the HTTP status. -/
def classifyStatusError (status : Nat) (body : Option Json) (url : String) : ArcGISError :=
  let estr := httpStatusErrorStr status url
  let fallback : String × Json := (estr, .num status)
  let mc :=
    match body with
    | some (.obj fs) =>
        match jGetD fs "error" (.obj []) with
        | .obj efs =>
            (pyStr (jGetD efs "message" (.str estr)), jGetD efs "code" (.num status))
        | _ => fallback
    | _ => fallback
  ⟨"HTTP Error: " ++ mc.1, some mc.2⟩

/-- Lines 207–239 after the exchange: `raise_for_status` sends non-2xx
statuses to the `HTTPStatusError` handler, 2xx statuses to the success
path; an `httpx.RequestError` becomes the request-level error. -/
def classifyResponse (t : TransportOutcome) (url : String) : Outcome :=
  match t with
  | .requestError msg => .err ⟨"Request Error: " ++ msg, none⟩
  | .response status body =>
      if 200 ≤ status ∧ status < 300 then classifySuccessBody body
      else .err (classifyStatusError status body url)

/-! ## The gateway `make_arcgis_request` (src/main.py lines 136–239) -/

/-- Everything observable about one call: the boundary outcome, the final
contents of the caller-supplied (mutated in place) parameter dict, the
request handed to the transport (`none` when the method is rejected
before transport), and the text printed by the logging calls. -/
structure ExecResult where
  outcome : Outcome
  finalParams : Params
  request : Option Request
  logged : List String

/-- `make_arcgis_request(url, params, method, timeout, token)` embedded
with its environment made explicit: `apiKey` is the module-level
`API_KEY`, `upstream` the deterministic transport, and `logFail` injects
the exception (if any) the logging formatting step raises. -/
def make_arcgis_request (url : String) (params0 : Params) (method : String)
    (timeout : Nat) (token : Option String) (apiKey : String)
    (upstream : Request → TransportOutcome) (logFail : Option LogExc) : ExecResult :=
  let params := resolveToken params0 token apiKey
  let params := defaultF params
  let headers := baseHeaders
  let log1 := log_http_request url params method headers none logFail
  if strToUpper method = "GET" then
    let req : Request := ⟨url, "GET", headers, params, none, timeout⟩
    ⟨classifyResponse (upstream req) url, params, some req, [log1]⟩
  else if strToUpper method = "POST" then
    let headers := headers ++ [("Content-Type", "application/json")]
    let fPop := popKeyD params "f" "json"
    let afterF := fPop.2
    let split :=
      if hasKey afterF "token" then
        let tPop := popKeyD afterF "token" ""
        ([("f", fPop.1), ("token", tPop.1)], tPop.2)
      else ([("f", fPop.1)], afterF)
    let log2 := log_http_request url split.1 method headers (some split.2) logFail
    let req : Request := ⟨url, "POST", headers, split.1, some split.2, timeout⟩
    ⟨classifyResponse (upstream req) url, split.2, some req, [log1, log2]⟩
  else
    ⟨.err ⟨"Unsupported HTTP method: " ++ method, none⟩, params, none, [log1]⟩

/-! ## A world for the idempotence claim -/

/-- The process environment a call runs in: the read-only default
credential, the deterministic transport, and a call counter standing for
any would-be hidden cross-call state (the gateway must not read it). -/
structure World where
  apiKey : String
  upstream : Request → TransportOutcome
  callCount : Nat

/-- One gateway call issued against a world: the call result plus the
world afterwards (only the counter advances; the gateway keeps no state
of its own). -/
def executeW (url : String) (params : Params) (method : String) (timeout : Nat)
    (token : Option String) (w : World) : ExecResult × World :=
  (make_arcgis_request url params method timeout token w.apiKey w.upstream none,
   ⟨w.apiKey, w.upstream, w.callCount + 1⟩)

/-- An outcome that is one of the two normalized shapes (returned JSON or
raised `ArcGISError`), as opposed to an escaped raw Python exception. -/
def isNormalized : Outcome → Bool
  | .result _ => true
  | .err _ => true
  | .uncaught _ => false

/-- A parsed 2xx body the in-band error check of lines 215–218 handles
without raising: absent, or an object whose `error` member (if present)
is itself an object, or a string not containing `"error"`, or an array
not containing the string `"error"`. -/
def safeInbandBody : Option Json → Bool
  | none => true
  | some (.obj fs) =>
      match jGet fs "error" with
      | some (.obj _) => true
      | some _ => false
      | none => true
  | some (.str s) => !strContainsSub s "error"
  | some (.arr es) => !jArrHasStr es "error"
  | some _ => false

/-- A transport outcome whose 2xx bodies (if any) are safe for the
in-band error check. -/
def respSafe : TransportOutcome → Bool
  | .response s b => if 200 ≤ s ∧ s < 300 then safeInbandBody b else true
  | .requestError _ => true

/-! ## Dictionary lemmas -/

theorem getKey_setKey_self (m : Params) (k v : String) :
    getKey (setKey m k v) k = some v := by
  induction m with
  | nil => simp [setKey, getKey]
  | cons kv rest ih =>
      by_cases h : kv.1 = k
      · simp [setKey, getKey, h]
      · simp [setKey, getKey, h, ih]

theorem getKey_setKey_ne {m : Params} {k k2 : String} (h : k2 ≠ k) (v : String) :
    getKey (setKey m k v) k2 = getKey m k2 := by
  induction m with
  | nil =>
      simp only [setKey, getKey]
      rw [if_neg (Ne.symm h)]
  | cons kv rest ih =>
      by_cases hk : kv.1 = k
      · subst hk
        simp only [setKey, if_pos rfl, getKey]
        rw [if_neg (Ne.symm h), if_neg (Ne.symm h)]
      · simp only [setKey, if_neg hk, getKey]
        by_cases h2 : kv.1 = k2
        · rw [if_pos h2, if_pos h2]
        · rw [if_neg h2, if_neg h2, ih]

theorem hasKey_iff_getKey (m : Params) (k : String) :
    hasKey m k = true ↔ ∃ v, getKey m k = some v := by
  induction m with
  | nil => simp [hasKey, getKey]
  | cons kv rest ih =>
      by_cases h : kv.1 = k
      · simp [hasKey, getKey, h]
      · simp [hasKey, getKey, h, ih]

theorem getKey_of_hasKey_false {m : Params} {k : String} (h : hasKey m k = false) :
    getKey m k = none := by
  cases hg : getKey m k with
  | none => rfl
  | some v =>
      have : hasKey m k = true := (hasKey_iff_getKey m k).mpr ⟨v, hg⟩
      rw [h] at this
      cases this

theorem getKey_eq_getKeyD {m : Params} {k : String} (h : hasKey m k = true)
    (d : String) : getKey m k = some (getKeyD m k d) := by
  obtain ⟨v, hv⟩ := (hasKey_iff_getKey m k).mp h
  simp [getKeyD, hv]

theorem getKey_eraseKey_self (m : Params) (k : String) :
    getKey (eraseKey m k) k = none := by
  induction m with
  | nil => simp [eraseKey, getKey]
  | cons kv rest ih =>
      by_cases h : kv.1 = k
      · simp [eraseKey, h, ih]
      · simp [eraseKey, getKey, h, ih]

theorem getKey_eraseKey_ne {m : Params} {k k2 : String} (h : k2 ≠ k) :
    getKey (eraseKey m k) k2 = getKey m k2 := by
  induction m with
  | nil => simp [eraseKey]
  | cons kv rest ih =>
      by_cases hk : kv.1 = k
      · subst hk
        simp only [eraseKey, if_pos rfl, getKey]
        rw [if_neg (Ne.symm h)]
        exact ih
      · simp only [eraseKey, if_neg hk, getKey]
        by_cases h2 : kv.1 = k2
        · rw [if_pos h2, if_pos h2]
        · rw [if_neg h2, if_neg h2, ih]

theorem eraseKey_of_hasKey_false {m : Params} {k : String} (h : hasKey m k = false) :
    eraseKey m k = m := by
  induction m with
  | nil => simp [eraseKey]
  | cons kv rest ih =>
      by_cases hk : kv.1 = k
      · simp [hasKey, hk] at h
      · simp [hasKey, hk] at h
        simp [eraseKey, hk, ih h]

theorem hasKey_setKey_self (m : Params) (k v : String) :
    hasKey (setKey m k v) k = true := by
  induction m with
  | nil => simp [setKey, hasKey]
  | cons kv rest ih =>
      by_cases h : kv.1 = k
      · simp [setKey, hasKey, h]
      · simp [setKey, hasKey, h, ih]

theorem setKey_setKey (m : Params) (k v w : String) :
    setKey (setKey m k v) k w = setKey m k w := by
  induction m with
  | nil => simp [setKey]
  | cons kv rest ih =>
      by_cases h : kv.1 = k
      · simp [setKey, h]
      · simp [setKey, h, ih]

theorem setKey_isEmpty (m : Params) (k v : String) :
    (setKey m k v).isEmpty = false := by
  cases m with
  | nil => simp [setKey]
  | cons kv rest =>
      by_cases h : kv.1 = k
      · simp [setKey, h]
      · simp [setKey, h]

theorem jHasKey_of_jGet {fs : List (String × Json)} {k : String} {v : Json}
    (h : jGet fs k = some v) : jHasKey fs k = true := by
  induction fs with
  | nil => simp [jGet] at h
  | cons kv rest ih =>
      by_cases hk : kv.1 = k
      · simp [jHasKey, hk]
      · simp [jGet, hk] at h
        simp [jHasKey, hk, ih h]

theorem getKey_resolveToken_ne (p : Params) (t : Option String) (a : String)
    {k : String} (h : k ≠ "token") :
    getKey (resolveToken p t a) k = getKey p k := by
  unfold resolveToken
  cases t with
  | none =>
      by_cases hc : a ≠ "" ∧ hasKey p "token" = false
      · simp [hc, getKey_setKey_ne h]
      · simp [hc]
  | some t0 =>
      by_cases ht : t0 = ""
      · by_cases hc : a ≠ "" ∧ hasKey p "token" = false
        · simp [ht, hc, getKey_setKey_ne h]
        · simp [ht, hc]
      · simp [ht, getKey_setKey_ne h]

theorem getKey_defaultF_ne (p : Params) {k : String} (h : k ≠ "f") :
    getKey (defaultF p) k = getKey p k := by
  unfold defaultF
  by_cases hc : hasKey p "f" = false
  · simp [hc, getKey_setKey_ne h]
  · simp [hc]

theorem hasKey_defaultF_f (p : Params) : hasKey (defaultF p) "f" = true := by
  unfold defaultF
  by_cases hc : hasKey p "f" = false
  · simp [hc, hasKey_setKey_self]
  · simp [hc]

theorem hasKey_eq_true_of_getKey {m : Params} {k : String} {v : String}
    (h : getKey m k = some v) : hasKey m k = true :=
  (hasKey_iff_getKey m k).mpr ⟨v, h⟩

/-- For a supported method, the gateway's outcome is the classification
of what the transport returns (here specialised to a transport that
answers every request the same way). -/
theorem outcome_of_const_upstream (url : String) (params : Params) (method : String)
    (timeout : Nat) (token : Option String) (apiKey : String) (logFail : Option LogExc)
    (upstream : Request → TransportOutcome) (t : TransportOutcome)
    (hup : ∀ r, upstream r = t)
    (hm : strToUpper method = "GET" ∨ strToUpper method = "POST") :
    (make_arcgis_request url params method timeout token apiKey upstream logFail).outcome
      = classifyResponse t url := by
  unfold make_arcgis_request
  cases hm with
  | inl h => simp [h, hup]
  | inr h => simp [h, hup]

/-! ## Claim theorems -/

/-- C1: a 2xx response whose JSON body contains a top-level `error`
object yields a Normalized Error (a raised `ArcGISError`), never a
Normalized Result: its message is built from the object's `message` field
(default `"Unknown error"`) and its code from the `code` field
(default `0`). -/
theorem c1_inband_api_error (url : String) (params : Params) (method : String)
    (timeout : Nat) (token : Option String) (apiKey : String) (logFail : Option LogExc)
    (status : Nat) (fs efs : List (String × Json))
    (upstream : Request → TransportOutcome)
    (hup : ∀ r, upstream r = .response status (some (.obj fs)))
    (h2xx : 200 ≤ status ∧ status < 300)
    (herr : jGet fs "error" = some (.obj efs))
    (hm : strToUpper method = "GET" ∨ strToUpper method = "POST") :
    (make_arcgis_request url params method timeout token apiKey upstream logFail).outcome
      = .err ⟨"API Error: " ++ pyStr (jGetD efs "message" (.str "Unknown error")),
              some (jGetD efs "code" (.num 0))⟩ := by
  rw [outcome_of_const_upstream url params method timeout token apiKey logFail
        upstream _ hup hm]
  simp only [classifyResponse]
  rw [if_pos h2xx]
  unfold classifySuccessBody
  simp [pyInStr, jHasKey_of_jGet herr, pySubscript, herr, pyGetD]

/-- Witness for C1: HTTP 200 with body
`\x7b"error": \x7b"message": "Invalid token", "code": 498\x7d\x7d` gives
an error of code 498 whose message contains `"Invalid token"`. -/
theorem c1_witness :
    (make_arcgis_request "https://geocode.example.com/findAddressCandidates" [] "GET" 30
        none ""
        (fun _ => .response 200 (some (.obj
          [("error", .obj [("message", .str "Invalid token"), ("code", .num 498)])])))
        none).outcome
      = .err ⟨"API Error: Invalid token", some (.num 498)⟩ ∧
    strContainsSub "API Error: Invalid token" "Invalid token" = true := by
  constructor
  · have h := c1_inband_api_error "https://geocode.example.com/findAddressCandidates" []
      "GET" 30 none "" none 200
      [("error", .obj [("message", .str "Invalid token"), ("code", .num 498)])]
      [("message", .str "Invalid token"), ("code", .num 498)]
      (fun _ => .response 200 (some (.obj
        [("error", .obj [("message", .str "Invalid token"), ("code", .num 498)])])))
      (fun _ => rfl) (by decide) rfl (Or.inl (by decide))
    exact h.trans rfl
  · decide

/-- C7: a 2xx response whose body is not valid JSON yields a Normalized
Error with no status code whose message indicates a malformed response. -/
theorem c7_malformed_2xx_body (url : String) (params : Params) (method : String)
    (timeout : Nat) (token : Option String) (apiKey : String) (logFail : Option LogExc)
    (status : Nat) (upstream : Request → TransportOutcome)
    (hup : ∀ r, upstream r = .response status none)
    (h2xx : 200 ≤ status ∧ status < 300)
    (hm : strToUpper method = "GET" ∨ strToUpper method = "POST") :
    (make_arcgis_request url params method timeout token apiKey upstream logFail).outcome
      = .err ⟨"Invalid JSON response from ArcGIS API", none⟩ := by
  rw [outcome_of_const_upstream url params method timeout token apiKey logFail
        upstream _ hup hm]
  simp only [classifyResponse]
  rw [if_pos h2xx]
  rfl

/-- Witness for C7: HTTP 200 with an unparseable body. -/
theorem c7_witness :
    (make_arcgis_request "https://places.example.com/near-point" [("x", "1")] "GET" 30
        none "KEY" (fun _ => .response 200 none) none).outcome
      = .err ⟨"Invalid JSON response from ArcGIS API", none⟩ :=
  c7_malformed_2xx_body "https://places.example.com/near-point" [("x", "1")] "GET" 30
    none "KEY" none 200 (fun _ => .response 200 none)
    (fun _ => rfl) (by decide) (Or.inl (by decide))

/-- C6: every non-2xx response yields a Normalized Error (a raised
`ArcGISError`), never an escaped transport exception — unconditionally,
for every body (first conjunct). Provenance: when the body parses to an
object with an embedded `error` object, message and code come from its
`message`/`code` fields; when the body does not parse, or parses without
an embedded `error` object (the bare-except fallback path), the message
is the generic status-derived text and the code is the HTTP status. -/
theorem c6_non2xx_normalized (url : String) (params : Params) (method : String)
    (timeout : Nat) (token : Option String) (apiKey : String) (logFail : Option LogExc)
    (status : Nat) (body : Option Json) (upstream : Request → TransportOutcome)
    (hup : ∀ r, upstream r = .response status body)
    (hnot : ¬(200 ≤ status ∧ status < 300))
    (hm : strToUpper method = "GET" ∨ strToUpper method = "POST") :
    ((make_arcgis_request url params method timeout token apiKey upstream logFail).outcome
        = .err (classifyStatusError status body url)) ∧
    (∀ fs efs m c, body = some (.obj fs) → jGet fs "error" = some (.obj efs) →
        jGet efs "message" = some m → jGet efs "code" = some c →
        (make_arcgis_request url params method timeout token apiKey upstream logFail).outcome
          = .err ⟨"HTTP Error: " ++ pyStr m, some c⟩) ∧
    (body = none →
        (make_arcgis_request url params method timeout token apiKey upstream logFail).outcome
          = .err ⟨"HTTP Error: " ++ httpStatusErrorStr status url, some (.num status)⟩) ∧
    (∀ j, body = some j → (∀ fs, j = .obj fs → jGet fs "error" = none) →
        (make_arcgis_request url params method timeout token apiKey upstream logFail).outcome
          = .err ⟨"HTTP Error: " ++ httpStatusErrorStr status url, some (.num status)⟩) := by
  have hbase : (make_arcgis_request url params method timeout token apiKey upstream
      logFail).outcome = .err (classifyStatusError status body url) := by
    rw [outcome_of_const_upstream url params method timeout token apiKey logFail
          upstream _ hup hm]
    simp only [classifyResponse]
    rw [if_neg hnot]
  refine ⟨hbase, ?_, ?_, ?_⟩
  · intro fs efs m c hb herr hmsg hcode
    subst hb
    rw [hbase]
    unfold classifyStatusError
    simp [jGetD, herr, hmsg, hcode]
  · intro hb
    subst hb
    rw [hbase]
    rfl
  · intro j hb hno
    subst hb
    rw [hbase]
    cases j with
    | obj fs =>
        have hje := hno fs rfl
        unfold classifyStatusError
        simp [jGetD, hje, jGet, pyStr]
    | null => rfl
    | bool b => rfl
    | num n => rfl
    | str s => rfl
    | arr es => rfl

/-- Witness for C6: HTTP 500 with a parseable body that has no embedded
`error` object (`\x7b"detail": "oops"\x7d`) yields a Normalized Error
carrying status 500 and the generic status-derived message — the
bare-except fallback path. -/
theorem c6_witness :
    (make_arcgis_request "https://elevation.example.com/at-point" [] "GET" 30 none ""
        (fun _ => .response 500 (some (.obj [("detail", .str "oops")]))) none).outcome
      = .err ⟨"HTTP Error: status error 500 for url https://elevation.example.com/at-point",
              some (.num 500)⟩ := by
  have h := (c6_non2xx_normalized "https://elevation.example.com/at-point" [] "GET" 30
    none "" none 500 (some (.obj [("detail", .str "oops")]))
    (fun _ => .response 500 (some (.obj [("detail", .str "oops")])))
    (fun _ => rfl) (by decide) (Or.inl (by decide))).2.2.2
    (.obj [("detail", .str "oops")]) rfl
    (by intro fs hf
        cases hf
        rfl)
  exact h.trans rfl

/-- `jHasKey` agrees with `jGet`. -/
theorem jHasKey_iff_jGet (fs : List (String × Json)) (k : String) :
    jHasKey fs k = true ↔ ∃ v, jGet fs k = some v := by
  induction fs with
  | nil => simp [jHasKey, jGet]
  | cons kv rest ih =>
      by_cases h : kv.1 = k
      · simp [jHasKey, jGet, h]
      · simp [jHasKey, jGet, h, ih]

theorem jHasKey_false_of_jGet_none {fs : List (String × Json)} {k : String}
    (h : jGet fs k = none) : jHasKey fs k = false := by
  cases hk : jHasKey fs k with
  | false => rfl
  | true =>
      obtain ⟨v, hv⟩ := (jHasKey_iff_jGet fs k).mp hk
      rw [h] at hv
      cases hv

/-- C2 counterexample: a 2xx response whose body is the JSON number `5`
makes the call end in an uncaught `TypeError` (Python evaluates
`"error" in 5`), which is neither a Normalized Result nor a raised
`ArcGISError` — the claim fails at this input. -/
theorem c2_counterexample :
    (make_arcgis_request "https://places.example.com/categories" [] "GET" 30 none ""
        (fun _ => .response 200 (some (.num 5))) none).outcome
      = .uncaught (.typeError "argument of type is not iterable") := rfl

/-- C2 (amended): the call yields exactly one of Normalized Result or
Normalized Error — no raw transport or JSON-decoding exception escapes —
provided every 2xx body the transport delivers is safe for the in-band
error check of lines 215–218: unparseable, or an object whose `error`
member (if present) is itself an object, or a string/array not containing
`"error"`. (2xx bodies outside that set let a raw `TypeError` or
`AttributeError` escape, as the counterexample shows; non-2xx responses,
transport errors and unsupported methods are normalized unconditionally.) -/
theorem c2_amended_totality (url : String) (params : Params) (method : String)
    (timeout : Nat) (token : Option String) (apiKey : String) (logFail : Option LogExc)
    (upstream : Request → TransportOutcome)
    (hsafe : ∀ r, respSafe (upstream r) = true) :
    isNormalized (make_arcgis_request url params method timeout token apiKey upstream
      logFail).outcome = true := by
  have main : ∀ req : Request, isNormalized (classifyResponse (upstream req) url) = true := by
    intro req
    have h := hsafe req
    cases ht : upstream req with
    | requestError msg => simp [classifyResponse, isNormalized]
    | response status body =>
        rw [ht] at h
        simp only [respSafe] at h
        simp only [classifyResponse]
        by_cases h2 : 200 ≤ status ∧ status < 300
        · rw [if_pos h2] at h ⊢
          cases body with
          | none => simp [classifySuccessBody, isNormalized]
          | some j =>
              cases j with
              | null => simp [safeInbandBody] at h
              | bool b => simp [safeInbandBody] at h
              | num n => simp [safeInbandBody] at h
              | str s =>
                  simp only [safeInbandBody, Bool.not_eq_eq_eq_not, Bool.not_true] at h
                  simp [classifySuccessBody, pyInStr, h, isNormalized]
              | arr es =>
                  simp only [safeInbandBody, Bool.not_eq_eq_eq_not, Bool.not_true] at h
                  simp [classifySuccessBody, pyInStr, h, isNormalized]
              | obj fs =>
                  simp only [safeInbandBody] at h
                  cases hj : jGet fs "error" with
                  | none =>
                      simp [classifySuccessBody, pyInStr,
                        jHasKey_false_of_jGet_none hj, isNormalized]
                  | some v =>
                      rw [hj] at h
                      cases v with
                      | obj efs =>
                          simp [classifySuccessBody, pyInStr, jHasKey_of_jGet hj,
                            pySubscript, hj, pyGetD, isNormalized]
                      | null => cases h
                      | bool b => cases h
                      | num n => cases h
                      | str s => cases h
                      | arr es => cases h
        · rw [if_neg h2]
          simp [isNormalized]
  unfold make_arcgis_request
  by_cases hg : strToUpper method = "GET"
  · simp only [hg, if_pos rfl]
    exact main _
  · by_cases hp : strToUpper method = "POST"
    · simp only [hg, hp, if_neg, if_pos rfl, reduceIte]
      exact main _
    · simp only [hg, hp, reduceIte]
      simp [isNormalized]

/-- Witness for the amended C2: a POST call against a 2xx object body
without an `error` member is normalized. -/
theorem c2_witness :
    isNormalized (make_arcgis_request "https://route.example.com/solve" [("stops", "a;b")]
      "POST" 30 (some "TKN") ""
      (fun _ => .response 200 (some (.obj [("routes", .arr [])]))) none).outcome = true := by
  apply c2_amended_totality
  intro r
  decide

/-- The query-string subset the POST branch builds at lines 190–192 from
the prepared parameter dict: exactly `f`, plus `token` when present. -/
def postQueryParams (p : Params) : Params :=
  if hasKey (eraseKey p "f") "token" then
    [("f", getKeyD p "f" "json"), ("token", getKeyD (eraseKey p "f") "token" "")]
  else [("f", getKeyD p "f" "json")]

/-- The request-body subset the POST branch leaves in `params` after the
two pops: everything except `f` and `token`. -/
def postBodyParams (p : Params) : Params :=
  eraseKey (eraseKey p "f") "token"

/-- C3: for POST, the query string holds exactly `f` and (when present)
`token`, every other supplied parameter goes to the JSON body and not to
the query string; for GET, no body is constructed and the whole prepared
parameter dict (including `f`, and `token` when applicable) is the query
string. -/
theorem c3_param_placement (url : String) (params : Params) (method : String)
    (timeout : Nat) (token : Option String) (apiKey : String) (logFail : Option LogExc)
    (upstream : Request → TransportOutcome) :
    (strToUpper method = "POST" →
      ((make_arcgis_request url params method timeout token apiKey upstream
          logFail).request.map (fun r => (r.query, r.body)))
        = some (postQueryParams (preparedParams params token apiKey),
                some (postBodyParams (preparedParams params token apiKey))) ∧
      (∀ k, k ≠ "f" → k ≠ "token" →
        getKey (postQueryParams (preparedParams params token apiKey)) k = none ∧
        getKey (postBodyParams (preparedParams params token apiKey)) k
          = getKey params k) ∧
      getKey (postQueryParams (preparedParams params token apiKey)) "f"
        = getKey (preparedParams params token apiKey) "f" ∧
      getKey (postQueryParams (preparedParams params token apiKey)) "token"
        = getKey (preparedParams params token apiKey) "token" ∧
      getKey (postBodyParams (preparedParams params token apiKey)) "f" = none ∧
      getKey (postBodyParams (preparedParams params token apiKey)) "token" = none) ∧
    (strToUpper method = "GET" →
      ((make_arcgis_request url params method timeout token apiKey upstream
          logFail).request.map (fun r => (r.query, r.body)))
        = some (preparedParams params token apiKey, none) ∧
      hasKey (preparedParams params token apiKey) "f" = true) := by
  have hfne : ("token" : String) ≠ "f" := by decide
  constructor
  · intro hp
    have hg : ¬(strToUpper method = "GET") := by
      rw [hp]
      decide
    refine ⟨?_, ?_, ?_, ?_, ?_, ?_⟩
    · unfold make_arcgis_request preparedParams
      rw [if_neg hg, if_pos hp]
      by_cases ht :
          hasKey (eraseKey (defaultF (resolveToken params token apiKey)) "f") "token" = true
      · simp [postQueryParams, postBodyParams, popKeyD, ht]
      · simp [postQueryParams, postBodyParams, popKeyD, ht,
          eraseKey_of_hasKey_false (Bool.of_not_eq_true ht)]
    · intro k hkf hkt
      constructor
      · unfold postQueryParams
        by_cases ht : hasKey (eraseKey (preparedParams params token apiKey) "f") "token"
        · simp [ht, getKey, hkf.symm, hkt.symm]
        · simp [ht, getKey, hkf.symm]
      · unfold postBodyParams
        rw [getKey_eraseKey_ne hkt, getKey_eraseKey_ne hkf]
        unfold preparedParams
        rw [getKey_defaultF_ne _ hkf, getKey_resolveToken_ne _ _ _ hkt]
    · have hf : hasKey (preparedParams params token apiKey) "f" = true :=
        hasKey_defaultF_f _
      unfold postQueryParams
      by_cases ht : hasKey (eraseKey (preparedParams params token apiKey) "f") "token"
      · simp [ht, getKey]
        exact (getKey_eq_getKeyD hf "json").symm
      · simp [ht, getKey]
        exact (getKey_eq_getKeyD hf "json").symm
    · unfold postQueryParams
      by_cases ht : hasKey (eraseKey (preparedParams params token apiKey) "f") "token"
      · simp [ht, getKey]
        rw [← getKey_eraseKey_ne (m := preparedParams params token apiKey) hfne]
        exact (getKey_eq_getKeyD ht "").symm
      · simp [ht, getKey]
        rw [← getKey_eraseKey_ne (m := preparedParams params token apiKey) hfne]
        exact (getKey_of_hasKey_false (Bool.of_not_eq_true ht)).symm
    · unfold postBodyParams
      rw [getKey_eraseKey_ne (Ne.symm hfne), getKey_eraseKey_self]
    · unfold postBodyParams
      rw [getKey_eraseKey_self]
  · intro hgm
    constructor
    · unfold make_arcgis_request
      rw [if_pos hgm]
      simp [preparedParams]
    · exact hasKey_defaultF_f _

/-- Witness for C3: a POST call with one domain parameter and a token
splits into query `f`/`token` and a body holding only the domain
parameter. -/
theorem c3_witness :
    ((make_arcgis_request "https://enrich.example.com/enrich" [("studyAreas", "ring")]
        "POST" 30 (some "SECRET") "" (fun _ => .requestError "refused")
        none).request.map (fun r => (r.query, r.body)))
      = some ([("f", "json"), ("token", "SECRET")], some [("studyAreas", "ring")]) := by
  have h := (c3_param_placement "https://enrich.example.com/enrich" [("studyAreas", "ring")]
    "POST" 30 (some "SECRET") "" none (fun _ => .requestError "refused")).1 (by decide)
  exact h.1.trans (by decide)

theorem truthyToken_some_false {t : String} (h : truthyToken (some t) = false) :
    t = "" := by
  by_cases ht : t = ""
  · exact ht
  · simp [truthyToken, ht] at h

/-- C4 counterexample: with an explicitly supplied (hence present)
empty-string override, a configured default, and a `token` entry already
in the mapping, the claim demands the override be written into
`params["token"]`; but `if token:` is false in Python for the empty
string, so the pre-existing value is kept unchanged. -/
theorem c4_counterexample :
    resolveToken [("token", "old")] (some "") "KEY" = [("token", "old")] ∧
    getKey (resolveToken [("token", "old")] (some "") "KEY") "token" ≠ some "" := by
  constructor
  · rfl
  · decide

/-- C4 (amended): credential resolution with presence read as Python
truthiness: a present and NON-EMPTY override is always written into
`params["token"]` (even over an existing entry); otherwise a non-empty
configured default fills `token` only when the key is absent; otherwise
the mapping is left unchanged, and with no credential anywhere the
request is still attempted unauthenticated, not rejected locally. -/
theorem c4_credential_resolution (params : Params) (token : Option String)
    (apiKey : String) :
    (∀ t, token = some t → t ≠ "" →
        resolveToken params token apiKey = setKey params "token" t) ∧
    (truthyToken token = false → apiKey ≠ "" → hasKey params "token" = false →
        resolveToken params token apiKey = setKey params "token" apiKey) ∧
    (truthyToken token = false → (apiKey = "" ∨ hasKey params "token" = true) →
        resolveToken params token apiKey = params) ∧
    (token = none → apiKey = "" → hasKey params "token" = false →
      ∀ url timeout upstream logFail,
        (make_arcgis_request url params "GET" timeout token apiKey upstream
            logFail).outcome
          = classifyResponse
              (upstream ⟨url, "GET", baseHeaders, defaultF params, none, timeout⟩) url ∧
        getKey (defaultF params) "token" = none) := by
  refine ⟨?_, ?_, ?_, ?_⟩
  · intro t ht hne
    subst ht
    simp [resolveToken, hne]
  · intro h1 h2 h3
    cases token with
    | none => simp [resolveToken, h2, h3]
    | some t => simp [resolveToken, truthyToken_some_false h1, h2, h3]
  · intro h1 h2
    cases token with
    | none =>
        cases h2 with
        | inl ha => simp [resolveToken, ha]
        | inr hh => simp [resolveToken, hh]
    | some t =>
        cases h2 with
        | inl ha => simp [resolveToken, truthyToken_some_false h1, ha]
        | inr hh => simp [resolveToken, truthyToken_some_false h1, hh]
  · intro hn ha hk url timeout upstream logFail
    subst hn
    subst ha
    constructor
    · simp [make_arcgis_request, resolveToken,
        (show strToUpper "GET" = "GET" from rfl)]
    · rw [getKey_defaultF_ne _ (show ("token" : String) ≠ "f" by decide)]
      exact getKey_of_hasKey_false hk

/-- Witness for the amended C4: no override, configured default, no
`token` key — the default is injected. -/
theorem c4_witness :
    resolveToken [] none "KEY" = [("token", "KEY")] := by
  have h := (c4_credential_resolution [] none "KEY").2.1 rfl (by decide) rfl
  exact h.trans rfl

/-- Redacting after writing any token value equals writing the marker. -/
theorem logSafeParams_setKey (m : Params) (x : String) :
    logSafeParams (setKey m "token" x) = setKey m "token" "......" := by
  unfold logSafeParams
  rw [if_pos (hasKey_setKey_self m "token" x), setKey_setKey]

/-- C5 counterexample: with token value `"example.com"` the logged
rendition contains the literal token value — it coincides with the host
name in the `Host:` line — so the claim that the rendition NEVER
contains the token value is false as universally quantified (the query
string itself does show the redaction marker). -/
theorem c5_counterexample :
    strContainsSub
      (log_http_request "https://example.com/geocode" [("token", "example.com")]
        "GET" baseHeaders none none)
      "example.com" = true := by decide

/-- C5 (amended): the rendition maps the `token` key to the fixed marker
`"......"` and is independent of the literal token value, in both the
query parameters and the POST body: renditions for any two token values
coincide. Hence the literal secret appears only when it coincides with
some other logged component, as in the counterexample. -/
theorem c5_token_redaction (url method : String) (headers : List (String × String))
    (ps bd : Params) (v w : String) :
    getKey (logSafeParams (setKey ps "token" v)) "token" = some "......" ∧
    log_http_request url (setKey ps "token" v) method headers
        (some (setKey bd "token" v)) none
      = log_http_request url (setKey ps "token" w) method headers
        (some (setKey bd "token" w)) none := by
  constructor
  · rw [logSafeParams_setKey]
    exact getKey_setKey_self ps "token" "......"
  · simp only [log_http_request, log_http_request_run, log_http_request_render,
      logSafeParams_setKey, setKey_isEmpty]

/-- C8: an exception raised while formatting the diagnostic log never
aborts the call: outcome, final parameter contents, and the transport
request are identical to a call with working logging, and every
exception class is caught inside `log_http_request` and turned into a
separate report line. -/
theorem c8_logging_never_fails_call (url : String) (params : Params) (method : String)
    (timeout : Nat) (token : Option String) (apiKey : String)
    (upstream : Request → TransportOutcome) (e : LogExc) :
    ((make_arcgis_request url params method timeout token apiKey upstream
          (some e)).outcome
        = (make_arcgis_request url params method timeout token apiKey upstream
            none).outcome ∧
     (make_arcgis_request url params method timeout token apiKey upstream
          (some e)).finalParams
        = (make_arcgis_request url params method timeout token apiKey upstream
            none).finalParams ∧
     (make_arcgis_request url params method timeout token apiKey upstream
          (some e)).request
        = (make_arcgis_request url params method timeout token apiKey upstream
            none).request) ∧
    (∀ m, log_http_request_run (.error (.typeError m))
            = "Error formatting HTTP request: " ++ m ∧
          log_http_request_run (.error (.valueError m))
            = "Error formatting HTTP request: " ++ m ∧
          log_http_request_run (.error (.attributeError m))
            = "Error formatting HTTP request: " ++ m ∧
          log_http_request_run (.error (.otherExc m))
            = "Unexpected error logging HTTP request: " ++ m) := by
  constructor
  · unfold make_arcgis_request
    by_cases hg : strToUpper method = "GET"
    · simp [hg]
    · by_cases hp : strToUpper method = "POST"
      · simp [hg, hp]
      · simp [hg, hp]
  · intro m
    exact ⟨rfl, rfl, rfl, rfl⟩

/-- C9: issuing the same Call Descriptor twice against a deterministic
upstream yields structurally identical results. The world threads a call
counter standing for any would-be hidden call-local state; the gateway
reads only the fixed credential and the transport from it, so the second
call (in the world the first call left behind) returns the same
`ExecResult`. -/
theorem c9_idempotent_calls (url : String) (params : Params) (method : String)
    (timeout : Nat) (token : Option String) (w : World) :
    (executeW url params method timeout token
        (executeW url params method timeout token w).2).1
      = (executeW url params method timeout token w).1 := rfl

/-- C10: the caller-supplied mapping is mutated in place and not
restored: after the call it holds the prepared parameters (`token` and
`f` possibly added), and for POST additionally with `f` and `token`
popped — and that popped remainder is exactly the dict serialized as the
request body. -/
theorem c10_params_mutated_in_place (url : String) (params : Params) (method : String)
    (timeout : Nat) (token : Option String) (apiKey : String)
    (upstream : Request → TransportOutcome) (logFail : Option LogExc) :
    (make_arcgis_request url params method timeout token apiKey upstream
        logFail).finalParams
      = (if strToUpper method = "POST"
         then postBodyParams (preparedParams params token apiKey)
         else preparedParams params token apiKey) ∧
    (strToUpper method = "POST" →
      (make_arcgis_request url params method timeout token apiKey upstream
          logFail).request.map Request.body
        = some (some ((make_arcgis_request url params method timeout token apiKey
            upstream logFail).finalParams))) := by
  have hmain : (make_arcgis_request url params method timeout token apiKey upstream
      logFail).finalParams
      = (if strToUpper method = "POST"
         then postBodyParams (preparedParams params token apiKey)
         else preparedParams params token apiKey) := by
    by_cases hg : strToUpper method = "GET"
    · have hnp : ¬(strToUpper method = "POST") := by
        rw [hg]
        decide
      simp [make_arcgis_request, hg, hnp, preparedParams]
    · by_cases hp : strToUpper method = "POST"
      · unfold make_arcgis_request preparedParams postBodyParams
        rw [if_neg hg, if_pos hp, if_pos hp]
        by_cases ht :
            hasKey (eraseKey (defaultF (resolveToken params token apiKey)) "f")
              "token" = true
        · simp [popKeyD, ht]
        · simp [popKeyD, ht,
            eraseKey_of_hasKey_false (Bool.of_not_eq_true ht)]
      · simp [make_arcgis_request, hg, hp, preparedParams]
  refine ⟨hmain, ?_⟩
  intro hp
  have hg : ¬(strToUpper method = "GET") := by
    rw [hp]
    decide
  rw [hmain, if_pos hp]
  unfold make_arcgis_request preparedParams postBodyParams
  rw [if_neg hg, if_pos hp]
  by_cases ht :
      hasKey (eraseKey (defaultF (resolveToken params token apiKey)) "f") "token" = true
  · simp [popKeyD, ht]
  · simp [popKeyD, ht, eraseKey_of_hasKey_false (Bool.of_not_eq_true ht)]

/-- Witness for C10: a POST call whose mapping supplied `f = "html"`
ends with the mapping reduced to the body subset — the injected `token`
and the supplied `f` are gone and nothing is restored. -/
theorem c10_witness :
    (make_arcgis_request "https://route.example.com/solve"
        [("f", "html"), ("stops", "a")] "POST" 30 none "KEY"
        (fun _ => .requestError "down") none).finalParams
      = [("stops", "a")] := by
  have h := (c10_params_mutated_in_place "https://route.example.com/solve"
    [("f", "html"), ("stops", "a")] "POST" 30 none "KEY"
    (fun _ => .requestError "down") none).1
  exact h.trans (by decide)

end ArcGISMCP
